import Mathlib

/-!
Shallow embedding of the UPI finance-assistant repository: the Gemini advice
client (`src/recommender.py`) and the Streamlit dashboard logic (`src/app.py`).

Currency amounts are modelled as exact rationals (the Python code works with
pandas float64; the decimal literals 0.50, 0.30, 0.20 are modelled by the
rationals they denote).  The external generative-AI service is modelled as an
oracle giving, for each prompt and attempt index, the outcome observed by the
caller of `model.generate_content`.
-/

/-- Outcome of one `model.generate_content(prompt)` call as observed by
`safe_generate` (`src/recommender.py` lines 40-46): a response object carrying
a `text` attribute, a response lacking it (malformed), a
`google.api_core.exceptions.ResourceExhausted` (rate-limit) exception, or any
other exception. -/
inductive ServiceOutcome where
  | success (text : String)
  | malformed
  | quota
  | otherError
  deriving DecidableEq, Repr

/-- Behaviour of the external service: outcome of the attempt with the given
index for the given prompt. -/
def Svc : Type := String → Nat → ServiceOutcome

/-- Exception with which `safe_generate` can terminate: the `ValueError`
raised for a malformed response (line 45), a re-raised generic exception
(line 55), or the `RuntimeError` raised after the loop (line 56). -/
inductive GenError where
  | valueError
  | otherExc
  | runtimeError
  deriving DecidableEq, Repr

instance : DecidableEq (Except GenError String) := fun x y =>
  match x, y with
  | .ok a, .ok b => if h : a = b then .isTrue (by rw [h]) else .isFalse (by simp [h])
  | .error a, .error b => if h : a = b then .isTrue (by rw [h]) else .isFalse (by simp [h])
  | .ok _, .error _ => .isFalse (by simp)
  | .error _, .ok _ => .isFalse (by simp)

/-- Observable result of running `safe_generate`: the returned text or the
raised exception, the number of `generate_content` calls made, and the
durations of the `time.sleep` calls performed, in order. -/
structure RunTrace where
  result : Except GenError String
  attempts : Nat
  sleeps : List Nat
  deriving DecidableEq, Repr

/-- The retry loop of `safe_generate` (`src/recommender.py` lines 38-56).
`fuel` is the number of loop iterations still allowed by
`for attempt in range(retries)` (so `fuel = retries - attempt`); the `fuel = 0`
case is the `raise RuntimeError` after the loop.  A response with a `text`
attribute is returned at once.  A `ResourceExhausted` exception always sleeps
and retries.  Any other exception (including the `ValueError` the function
itself raises for a malformed response, which is caught by the generic
`except Exception` handler) sleeps and retries while `attempt < retries - 1`,
and is re-raised on the final attempt. -/
def safeGenerateGo (svc : Svc) (prompt : String) (retries sleep_time : Nat) :
    Nat → Nat → RunTrace
  | 0, _ => { result := .error .runtimeError, attempts := 0, sleeps := [] }
  | fuel + 1, attempt =>
    match svc prompt attempt with
    | .success t => { result := .ok t, attempts := 1, sleeps := [] }
    | .malformed =>
      if attempt < retries - 1 then
        let rest := safeGenerateGo svc prompt retries sleep_time fuel (attempt + 1)
        { result := rest.result, attempts := rest.attempts + 1,
          sleeps := sleep_time :: rest.sleeps }
      else
        { result := .error .valueError, attempts := 1, sleeps := [] }
    | .quota =>
      let rest := safeGenerateGo svc prompt retries sleep_time fuel (attempt + 1)
      { result := rest.result, attempts := rest.attempts + 1,
        sleeps := sleep_time :: rest.sleeps }
    | .otherError =>
      if attempt < retries - 1 then
        let rest := safeGenerateGo svc prompt retries sleep_time fuel (attempt + 1)
        { result := rest.result, attempts := rest.attempts + 1,
          sleeps := sleep_time :: rest.sleeps }
      else
        { result := .error .otherExc, attempts := 1, sleeps := [] }

/-- The function `safe_generate(model, prompt, retries=3, sleep_time=20)` of
`src/recommender.py`; the model argument is absorbed into the service oracle
`svc`.  Callers relying on the Python default arguments pass `3` and `20`. -/
def safe_generate (svc : Svc) (prompt : String) (retries sleep_time : Nat) :
    RunTrace :=
  safeGenerateGo svc prompt retries sleep_time retries 0

/-- The prompt built inside `generate_recommendations` (`src/recommender.py`
lines 63-73).  The check `if additional_context:` is Python truthiness, so an
empty string behaves like `None`. -/
def prompt_for (summary_text : String) (additional_context : Option String) :
    String :=
  let base := "You are a financial advisor AI.\n\nBased on the user\x27s spending summary below, provide:\n1. Monthly budget planning advice.\n2. Suggestions to reduce unnecessary spending.\n3. Personalized financial advice.\n\n"
  let base :=
    match additional_context with
    | some c => if c = "" then base else base ++ "Additional context: " ++ c ++ "\n\n"
    | none => base
  base ++ "Spending Summary:\n" ++ summary_text ++ "\n\nPlease provide concise, actionable advice."

/-- The fixed user-facing failure string returned by
`generate_recommendations` when `safe_generate` raises (`src/recommender.py`
line 80). -/
def fallbackMessage : String :=
  "Sorry, I couldn\x27t generate recommendations at this time due to a technical issue."

/-- Observable result of `generate_recommendations`: the returned advice
string together with the attempt count and sleep durations of the underlying
`safe_generate` run. -/
structure AdviceOutcome where
  advice : String
  attempts : Nat
  sleeps : List Nat
  deriving DecidableEq, Repr

/-- The function `generate_recommendations(summary_text, additional_context=None)`
of `src/recommender.py` (lines 58-80): builds the prompt, calls
`safe_generate` with the default retry budget, and converts any exception into
the fixed fallback string. -/
def generate_recommendations (svc : Svc) (summary_text : String)
    (additional_context : Option String) : AdviceOutcome :=
  let prompt := prompt_for summary_text additional_context
  let tr := safe_generate svc prompt 3 20
  match tr.result with
  | .ok t => { advice := t, attempts := tr.attempts, sleeps := tr.sleeps }
  | .error _ => { advice := fallbackMessage, attempts := tr.attempts, sleeps := tr.sleeps }

/-- Service that answers every attempt with a malformed response. -/
def svcMalformed : Svc := fun _ _ => ServiceOutcome.malformed

/-- Service that answers every attempt with a rate-limit (quota) error. -/
def svcQuota : Svc := fun _ _ => ServiceOutcome.quota

/-- Service that immediately succeeds with a text surrounded by whitespace. -/
def svcOkSpaced : Svc := fun _ _ => ServiceOutcome.success " ok "

/-- One row of the uploaded transactions CSV (`src/app.py`): required columns
`datetime`, `amount`, `merchant_category`, `expense_type`. -/
structure Txn where
  datetime : String
  amount : ℚ
  merchant_category : String
  expense_type : String
  deriving DecidableEq, Repr

/-- The list `required_cols` of `src/app.py` line 131. -/
def required_cols : List String :=
  ["datetime", "amount", "merchant_category", "expense_type"]

/-- The function `validate_columns(df, required_cols)` of `src/app.py`
lines 55-56: the required columns absent from the dataframe, in the order of
`required_cols`. -/
def validate_columns (cols : List String) (required : List String) :
    List String :=
  required.filter (fun c => !(cols.contains c))

/-- Lexicographic comparison of character lists by Unicode code point, the
order Python uses to compare the strings that pandas sorts group keys by. -/
def charListLe : List Char → List Char → Bool
  | [], _ => true
  | _ :: _, [] => false
  | a :: as, b :: bs =>
    if a.toNat < b.toNat then true
    else if b.toNat < a.toNat then false
    else charListLe as bs

/-- Lexicographic order on strings by Unicode code point. -/
def strLe (a b : String) : Bool := charListLe a.data b.data

/-- Models `df.groupby(key)[amount].sum()` for a string-valued key: pandas
groupby (with its default `sort=True`) indexes the result by the distinct key
values in ascending lexicographic order, each paired with the sum of the
amounts of the rows having that key value. -/
def groupby_sum (key : Txn → String) (df : List Txn) : List (String × ℚ) :=
  (((df.map key).dedup).mergeSort (fun a b => strLe a b)).map
    (fun c => (c, ((df.filter (fun t => key t == c)).map (fun t => t.amount)).sum))

/-- Models `Series.sort_values(ascending=False)`: pandas computes a stable
ascending argsort of the values and reverses the resulting indexer
(`nargsort`), so the output is the reverse of a stable ascending sort. -/
def sort_values_descending (l : List (String × ℚ)) : List (String × ℚ) :=
  (l.mergeSort (fun a b => decide (a.2 ≤ b.2))).reverse

/-- The dictionary returned by `spending_patterns(df)` (`src/app.py`
lines 58-65).  `avg_transaction` is `df[amount].mean()`; the mean of an empty
frame (pandas NaN) is modelled as 0, which no verified property relies on. -/
structure SpendingPatterns where
  total_spend : ℚ
  spend_by_category : List (String × ℚ)
  spend_essential : ℚ
  spend_non_essential : ℚ
  avg_transaction : ℚ
  deriving DecidableEq, Repr

/-- The function `spending_patterns(df)` of `src/app.py` lines 58-65. -/
def spending_patterns (df : List Txn) : SpendingPatterns :=
  { total_spend := (df.map (fun t => t.amount)).sum,
    spend_by_category :=
      sort_values_descending (groupby_sum (fun t => t.merchant_category) df),
    spend_essential :=
      ((df.filter (fun t => t.expense_type == "essential")).map (fun t => t.amount)).sum,
    spend_non_essential :=
      ((df.filter (fun t => t.expense_type == "non-essential")).map (fun t => t.amount)).sum,
    avg_transaction := ((df.map (fun t => t.amount)).sum) / (df.length : ℚ) }

/-- The 50/30/20 allocation figures computed by `build_summary_text`
(`src/app.py` lines 80-82): `need = income * 0.50`, `want = income * 0.30`,
`save = income * 0.20`. -/
structure Allocation where
  needs : ℚ
  wants : ℚ
  savings : ℚ
  deriving DecidableEq, Repr

/-- Structured content of the digest string assembled by
`build_summary_text(patterns, income)` (`src/app.py` lines 67-91): the fields
interpolated into the f-string template, in particular the top-5 category
slice and the optional income block.  The surrounding fixed template text is
presentation and is not modelled. -/
structure SummaryText where
  total_spend : ℚ
  spend_essential : ℚ
  spend_non_essential : ℚ
  avg_transaction : ℚ
  top_cats : List (String × ℚ)
  monthly_income : Option ℚ
  allocation : Option Allocation
  deriving DecidableEq, Repr

/-- The function `build_summary_text(patterns, income=None)` of `src/app.py`
lines 67-91.  `top_cats` is `patterns[spend_by_category].head(5)`; the income
block is appended under `if income:` (Python truthiness, so `0` behaves like
`None`). -/
def build_summary_text (patterns : SpendingPatterns) (income : Option ℚ) :
    SummaryText :=
  let keep : Option ℚ := match income with
    | some i => if i = 0 then none else some i
    | none => none
  { total_spend := patterns.total_spend,
    spend_essential := patterns.spend_essential,
    spend_non_essential := patterns.spend_non_essential,
    avg_transaction := patterns.avg_transaction,
    top_cats := patterns.spend_by_category.take 5,
    monthly_income := keep,
    allocation := keep.map (fun i =>
      { needs := i * (50 / 100), wants := i * (30 / 100), savings := i * (20 / 100) }) }

/-- The data of the bar chart built by `plot_category_spend(df)`
(`src/app.py` lines 93-100): `df.groupby(merchant_category)[amount].sum()`
over the full dataframe. -/
def plot_category_spend (df : List Txn) : List (String × ℚ) :=
  groupby_sum (fun t => t.merchant_category) df

/-- The data of the pie chart built by `plot_expense_type_distribution(df)`
(`src/app.py` lines 102-109): `df.groupby(expense_type)[amount].sum()` over
the full dataframe. -/
def plot_expense_type_distribution (df : List Txn) : List (String × ℚ) :=
  groupby_sum (fun t => t.expense_type) df

/-- An uploaded dataframe: its column names (schema of the CSV) and its parsed
rows.  Column validation consults only `cols`; the rows are used once the
schema has been validated. -/
structure DataFrame where
  cols : List String
  rows : List Txn
  deriving DecidableEq, Repr

/-- Outcome of one run of the analyze branch of `main()`: either the early
return with the missing-columns error (`src/app.py` lines 132-135), or the
rendered summary, rule-based warning flag and the two charts
(lines 140-157). -/
inductive MainResult where
  | missingColumns (missing : List String)
  | analyzed (summary : SummaryText) (warned : Bool)
      (category_chart : List (String × ℚ)) (expense_chart : List (String × ℚ))
  deriving DecidableEq, Repr

/-- The analyze flow of `main()` (`src/app.py` lines 131-157): validate the
columns of the full dataframe; on success take `df_small = df.head(3)`,
compute the spending patterns and the summary from `df_small` (income is
passed when `monthly_income > 0`), set the warning flag when
`spend_non_essential > 0.5 * total_spend`, and build both charts from the full
dataframe. -/
def main_analyze (df : DataFrame) (monthly_income : ℚ) : MainResult :=
  let missing := validate_columns df.cols required_cols
  if missing = [] then
    let df_small := df.rows.take 3
    let patterns := spending_patterns df_small
    let summary := build_summary_text patterns
      (if 0 < monthly_income then some monthly_income else none)
    let warned := decide (patterns.total_spend * (50 / 100) < patterns.spend_non_essential)
    MainResult.analyzed summary warned
      (plot_category_spend df.rows) (plot_expense_type_distribution df.rows)
  else
    MainResult.missingColumns missing

/-- The summary-and-warning part of a `MainResult` (what `main()` renders from
`df_small`), `none` when the run aborted on validation. -/
def summary_of : MainResult → Option (SummaryText × Bool)
  | .missingColumns _ => none
  | .analyzed s w _ _ => some (s, w)

/-- The chart part of a `MainResult` (what `main()` renders from the full
dataframe), `none` when the run aborted on validation. -/
def charts_of : MainResult → Option (List (String × ℚ) × List (String × ℚ))
  | .missingColumns _ => none
  | .analyzed _ _ cc ec => some (cc, ec)

/-- The advice block of `main()` (`src/app.py` lines 160-162): the advice is
generated only when the `advice` key is absent from `st.session_state`,
otherwise the stored string is redisplayed.  Returns the displayed string, the
new session state and the number of `generate_recommendations` calls made. -/
def analyze_click (svc : Svc) (advice_state : Option String)
    (summary_text : String) : String × Option String × Nat :=
  match advice_state with
  | some a => (a, some a, 0)
  | none =>
    let r := generate_recommendations svc summary_text none
    (r.advice, some r.advice, 1)

/-- A sequence of analyze-button presses within one session, each with its own
service behaviour and freshly computed summary text (the uploaded data and the
income input may change between presses).  Returns the final session state and
the total number of `generate_recommendations` calls. -/
def session_run (advice_state : Option String) :
    List (Svc × String) → Option String × Nat
  | [] => (advice_state, 0)
  | (svc, s) :: rest =>
    let step := analyze_click svc advice_state s
    let next := session_run step.2.1 rest
    (next.1, step.2.2 + next.2)

/-- Follows the claim words for C3: the response text trimmed of surrounding
whitespace (Python `str.strip()`), for comparison with what the code returns. -/
def trimmed (s : String) : String :=
  ⟨((s.data.dropWhile (fun c => c.isWhitespace)).reverse.dropWhile
      (fun c => c.isWhitespace)).reverse⟩

/-- Follows the claim words for C6: the distinct categories in their original
order of appearance in the input. -/
def cats_in_order (df : List Txn) : List String :=
  df.foldl (fun acc t =>
    if t.merchant_category ∈ acc then acc else acc ++ [t.merchant_category]) []

/-- Follows the claim words for C6: the category breakdown ordered descending
by summed amount with ties broken by the categories' original order of
appearance (a stable descending sort of the appearance-ordered sums). -/
def spend_by_category_claimed (df : List Txn) : List (String × ℚ) :=
  ((cats_in_order df).map
      (fun c => (c, ((df.filter (fun t => t.merchant_category == c)).map
        (fun t => t.amount)).sum))).mergeSort
    (fun a b => decide (b.2 ≤ a.2))

/-- Two-row frame whose categories are tied on amount, with category `a`
appearing before category `z` in the input. -/
def dfC6 : List Txn :=
  [⟨"t1", 10, "a", "essential"⟩, ⟨"t2", 10, "z", "essential"⟩]

/-- Valid four-row frame; its fourth row has category `x`. -/
def dfA : DataFrame :=
  { cols := required_cols,
    rows := [⟨"t1", 10, "a", "essential"⟩, ⟨"t2", 20, "a", "essential"⟩,
             ⟨"t3", 30, "a", "essential"⟩, ⟨"t4", 40, "x", "essential"⟩] }

/-- Same as `dfA` except that the fourth row has category `y`. -/
def dfB : DataFrame :=
  { cols := required_cols,
    rows := [⟨"t1", 10, "a", "essential"⟩, ⟨"t2", 20, "a", "essential"⟩,
             ⟨"t3", 30, "a", "essential"⟩, ⟨"t4", 40, "y", "essential"⟩] }

/-! Helper lemmas about the retry loop. -/

/-- Under a service that rate-limits every attempt, each loop iteration sleeps
and retries, and the loop ends in the `RuntimeError`. -/
theorem safeGenerateGo_const_quota (svc : Svc) (prompt : String)
    (retries sleep_time : Nat) (h : ∀ i, svc prompt i = ServiceOutcome.quota) :
    ∀ fuel attempt, safeGenerateGo svc prompt retries sleep_time fuel attempt =
      { result := .error .runtimeError, attempts := fuel,
        sleeps := List.replicate fuel sleep_time } := by
  intro fuel
  induction fuel with
  | zero => intro attempt; rfl
  | succ n ih =>
    intro attempt
    simp [safeGenerateGo, h attempt, ih (attempt + 1), List.replicate]

/-- One step of the loop on a malformed response: sleep and retry while
`attempt < retries - 1`, re-raise the `ValueError` on the final attempt. -/
theorem safeGenerateGo_succ_malformed (svc : Svc) (prompt : String)
    (retries sleep_time fuel attempt : Nat)
    (h : svc prompt attempt = ServiceOutcome.malformed) :
    safeGenerateGo svc prompt retries sleep_time (fuel + 1) attempt =
      if attempt < retries - 1 then
        { result := (safeGenerateGo svc prompt retries sleep_time fuel (attempt + 1)).result,
          attempts := (safeGenerateGo svc prompt retries sleep_time fuel (attempt + 1)).attempts + 1,
          sleeps := sleep_time ::
            (safeGenerateGo svc prompt retries sleep_time fuel (attempt + 1)).sleeps }
      else
        { result := .error .valueError, attempts := 1, sleeps := [] } := by
  simp [safeGenerateGo, h]

/-- Under a service whose every response is malformed, each iteration before
the last sleeps and retries, and the final iteration re-raises the
`ValueError`. -/
theorem safeGenerateGo_const_malformed (svc : Svc) (prompt : String)
    (retries sleep_time : Nat)
    (h : ∀ i, svc prompt i = ServiceOutcome.malformed) :
    ∀ fuel attempt, fuel + attempt = retries → 0 < fuel →
      safeGenerateGo svc prompt retries sleep_time fuel attempt =
        { result := .error .valueError, attempts := fuel,
          sleeps := List.replicate (fuel - 1) sleep_time } := by
  intro fuel
  induction fuel with
  | zero => intro attempt _ hpos; exact absurd hpos (by simp)
  | succ n ih =>
    intro attempt hsum _
    by_cases hn : n = 0
    · subst hn
      have hlast : ¬ attempt < retries - 1 := by omega
      simp [safeGenerateGo, h attempt, hlast]
    · obtain ⟨k, rfl⟩ : ∃ k, n = k + 1 := ⟨n - 1, by omega⟩
      have hmid : attempt < retries - 1 := by omega
      rw [safeGenerateGo_succ_malformed svc prompt retries sleep_time (k + 1) attempt
          (h attempt),
        if_pos hmid, ih (attempt + 1) (by omega) (by simp)]
      simp [List.replicate_succ]

/-- A first attempt that succeeds returns at once without sleeping. -/
theorem safeGenerateGo_first_success (svc : Svc) (prompt : String)
    (retries sleep_time fuel attempt : Nat) (t : String)
    (h : svc prompt attempt = ServiceOutcome.success t) :
    safeGenerateGo svc prompt retries sleep_time (fuel + 1) attempt =
      { result := .ok t, attempts := 1, sleeps := [] } := by
  simp [safeGenerateGo, h]

/-- Claim C1, counterexample: with the default budget, a service whose
responses all lack the `text` field does not fail immediately on the first
attempt; `safe_generate` performs three attempts with two backoff sleeps
before the `ValueError` surfaces, refuting "no retry and no backoff wait is
performed before the failure is surfaced". -/
theorem malformed_not_immediate_counterexample :
    (safe_generate svcMalformed "p" 3 20).attempts = 3
    ∧ (safe_generate svcMalformed "p" 3 20).sleeps = [20, 20]
    ∧ ¬ ((safe_generate svcMalformed "p" 3 20).attempts = 1
        ∧ (safe_generate svcMalformed "p" 3 20).sleeps = []) := by
  decide

/-- Claim C1, amended: a malformed response is not failed immediately; it is
retried with the same backoff as any other non-quota exception while attempts
remain, and the `ValueError` is surfaced only once it occurs on the final
attempt, so a persistently malformed service yields `retries` attempts and
`retries - 1` backoff sleeps before the failure. -/
theorem malformed_response_retried (svc : Svc) (prompt : String)
    (retries sleep_time : Nat) (hr : 0 < retries)
    (h : ∀ i, svc prompt i = ServiceOutcome.malformed) :
    safe_generate svc prompt retries sleep_time =
      { result := .error .valueError, attempts := retries,
        sleeps := List.replicate (retries - 1) sleep_time } := by
  unfold safe_generate
  exact safeGenerateGo_const_malformed svc prompt retries sleep_time h retries 0
    (by omega) hr

/-- Claim C1, witness for the amended theorem at the default configuration. -/
theorem malformed_response_retried_witness :
    safe_generate svcMalformed "q" 3 20 =
      { result := .error .valueError, attempts := 3,
        sleeps := List.replicate 2 20 } :=
  malformed_response_retried svcMalformed "q" 3 20 (by decide) (fun _ => rfl)

/-- Claim C2: when every attempt hits the rate limit, exactly the default
budget of 3 attempts is made, each followed by the fixed 20-unit backoff
sleep, and `generate_recommendations` returns the user-facing fallback
message. -/
theorem quota_exhaustion_three_attempts_then_fallback (svc : Svc)
    (summary_text : String) (additional_context : Option String)
    (h : ∀ i, svc (prompt_for summary_text additional_context) i =
      ServiceOutcome.quota) :
    generate_recommendations svc summary_text additional_context =
      { advice := fallbackMessage, attempts := 3, sleeps := [20, 20, 20] } := by
  have hs : safe_generate svc (prompt_for summary_text additional_context) 3 20 =
      { result := .error .runtimeError, attempts := 3, sleeps := [20, 20, 20] } := by
    unfold safe_generate
    simpa using safeGenerateGo_const_quota svc _ 3 20 h 3 0
  simp [generate_recommendations, hs]

/-- Claim C2, witness: a concrete always-rate-limited service. -/
theorem quota_exhaustion_three_attempts_then_fallback_witness :
    generate_recommendations svcQuota "digest" none =
      { advice := fallbackMessage, attempts := 3, sleeps := [20, 20, 20] } :=
  quota_exhaustion_three_attempts_then_fallback svcQuota "digest" none
    (fun _ => rfl)

/-- Claim C3, counterexample: a successful first response whose text carries
surrounding whitespace is returned exactly as sent, not trimmed, refuting
"returns that response text trimmed of surrounding whitespace". -/
theorem success_text_not_trimmed_counterexample :
    (generate_recommendations svcOkSpaced "s" none).advice = " ok "
    ∧ trimmed " ok " = "ok"
    ∧ (generate_recommendations svcOkSpaced "s" none).advice ≠ trimmed " ok " := by
  decide

/-- Claim C3, amended: a response with a `text` field on the first attempt is
returned entirely unchanged (no trimming), after exactly one attempt and with
no backoff sleep. -/
theorem success_first_attempt_returns_text_unchanged (svc : Svc)
    (summary_text : String) (additional_context : Option String) (t : String)
    (h : svc (prompt_for summary_text additional_context) 0 =
      ServiceOutcome.success t) :
    generate_recommendations svc summary_text additional_context =
      { advice := t, attempts := 1, sleeps := [] } := by
  have hs : safe_generate svc (prompt_for summary_text additional_context) 3 20 =
      { result := .ok t, attempts := 1, sleeps := [] } :=
    safeGenerateGo_first_success svc _ 3 20 2 0 t h
  simp [generate_recommendations, hs]

/-- Claim C3, witness for the amended theorem. -/
theorem success_first_attempt_returns_text_unchanged_witness :
    generate_recommendations svcOkSpaced "digest" none =
      { advice := " ok ", attempts := 1, sleeps := [] } :=
  success_first_attempt_returns_text_unchanged svcOkSpaced "digest" none " ok " rfl

/-- Claim C4: for every service behaviour, `generate_recommendations` returns
a string and propagates no exception; either the underlying `safe_generate`
run returned a text, which is passed through, or it raised, and the error is
converted into the fixed displayed fallback message. -/
theorem generate_recommendations_never_raises (svc : Svc) (s : String)
    (c : Option String) :
    (∃ t, (safe_generate svc (prompt_for s c) 3 20).result = Except.ok t
      ∧ (generate_recommendations svc s c).advice = t)
    ∨ (∃ e, (safe_generate svc (prompt_for s c) 3 20).result = Except.error e
      ∧ (generate_recommendations svc s c).advice = fallbackMessage) := by
  cases h : (safe_generate svc (prompt_for s c) 3 20).result with
  | ok t => exact Or.inl ⟨t, rfl, by simp [generate_recommendations, h]⟩
  | error e => exact Or.inr ⟨e, rfl, by simp [generate_recommendations, h]⟩

/-- Claim C5: when every row is labelled `essential` or `non-essential`, the
total spend computed by `spending_patterns` equals the essential subtotal plus
the non-essential subtotal. -/
theorem total_spend_eq_essential_add_non_essential (df : List Txn)
    (h : ∀ t ∈ df, t.expense_type = "essential" ∨ t.expense_type = "non-essential") :
    (spending_patterns df).total_spend =
      (spending_patterns df).spend_essential +
        (spending_patterns df).spend_non_essential := by
  simp only [spending_patterns]
  induction df with
  | nil => simp
  | cons t rest ih =>
    have ht := h t (List.mem_cons_self t rest)
    have hrest := ih (fun x hx => h x (List.mem_cons_of_mem t hx))
    rcases ht with h1 | h1 <;>
      simp [List.filter_cons, h1, hrest] <;> ring

/-- Claim C5, witness: a two-row frame with one label of each kind. -/
theorem total_spend_eq_essential_add_non_essential_witness :
    (spending_patterns [⟨"t1", 5, "food", "essential"⟩,
        ⟨"t2", 7, "games", "non-essential"⟩]).total_spend =
      (spending_patterns [⟨"t1", 5, "food", "essential"⟩,
        ⟨"t2", 7, "games", "non-essential"⟩]).spend_essential +
        (spending_patterns [⟨"t1", 5, "food", "essential"⟩,
          ⟨"t2", 7, "games", "non-essential"⟩]).spend_non_essential :=
  total_spend_eq_essential_add_non_essential
    [⟨"t1", 5, "food", "essential"⟩, ⟨"t2", 7, "games", "non-essential"⟩]
    (by decide)

/-- Claim C7: for any income greater than zero, `build_summary_text` appends
the allocation `income * 0.50` (needs), `income * 0.30` (wants),
`income * 0.20` (savings), and the three figures sum exactly to the income. -/
theorem allocation_sums_to_income (patterns : SpendingPatterns) (i : ℚ)
    (hi : 0 < i) :
    (build_summary_text patterns (some i)).allocation =
      some { needs := i * (50 / 100), wants := i * (30 / 100),
             savings := i * (20 / 100) }
    ∧ i * (50 / 100) + i * (30 / 100) + i * (20 / 100) = i := by
  constructor
  · simp [build_summary_text, hi.ne']
  · ring

/-- Claim C7, witness at income 1000. -/
theorem allocation_sums_to_income_witness :
    (build_summary_text (spending_patterns []) (some 1000)).allocation =
      some { needs := 1000 * (50 / 100), wants := 1000 * (30 / 100),
             savings := 1000 * (20 / 100) }
    ∧ (1000 : ℚ) * (50 / 100) + 1000 * (30 / 100) + 1000 * (20 / 100) = 1000 :=
  allocation_sums_to_income (spending_patterns []) 1000 (by norm_num)

/-- Claim C8: an uploaded dataframe missing at least one required column makes
`main()` stop with the missing-columns error, whose list contains exactly the
required columns absent from the dataframe, and no summary is produced. -/
theorem missing_columns_reported_exactly (df : DataFrame) (income : ℚ)
    (h : ∃ c ∈ required_cols, c ∉ df.cols) :
    ∃ m, main_analyze df income = MainResult.missingColumns m
      ∧ m ≠ []
      ∧ (∀ c, c ∈ m ↔ c ∈ required_cols ∧ c ∉ df.cols) := by
  have hm : validate_columns df.cols required_cols ≠ [] := by
    obtain ⟨c, hc, hnc⟩ := h
    intro he
    have hcm : c ∈ validate_columns df.cols required_cols := by
      simp [validate_columns, List.mem_filter, hc, hnc]
    simp [he] at hcm
  refine ⟨validate_columns df.cols required_cols, ?_, hm, ?_⟩
  · simp [main_analyze, hm]
  · intro c
    simp [validate_columns, List.mem_filter]

/-- Claim C8, witness: a dataframe carrying only the `datetime` column. -/
theorem missing_columns_reported_exactly_witness :
    ∃ m, main_analyze { cols := ["datetime"], rows := [] } 0 =
        MainResult.missingColumns m
      ∧ m ≠ []
      ∧ (∀ c, c ∈ m ↔ c ∈ required_cols
          ∧ c ∉ ({ cols := ["datetime"], rows := [] } : DataFrame).cols) :=
  missing_columns_reported_exactly { cols := ["datetime"], rows := [] } 0
    ⟨"amount", by decide, by decide⟩

/-- Once the session state holds an advice string, any further sequence of
analyze actions leaves it unchanged and never calls the generator. -/
theorem session_run_cached (a : String) :
    ∀ acts, session_run (some a) acts = (some a, 0) := by
  intro acts
  induction acts with
  | nil => rfl
  | cons act rest ih =>
    cases act with
    | mk svc s => simp [session_run, analyze_click, ih]

/-- Claim C10: within one session the advice is generated at most once — an
analyze action finding a stored advice string redisplays it with zero
generator calls, a stored string survives any further sequence of analyze
actions unchanged, and any session performs at most one generator call in
total, whatever data or income each action carries. -/
theorem advice_generated_at_most_once :
    (∀ svc a s, analyze_click svc (some a) s = (a, some a, 0))
    ∧ (∀ a acts, session_run (some a) acts = (some a, 0))
    ∧ (∀ state acts, (session_run state acts).2 ≤ 1) := by
  refine ⟨fun svc a s => rfl, fun a acts => session_run_cached a acts, ?_⟩
  intro state acts
  cases state with
  | some a => simp [session_run_cached a acts]
  | none =>
    cases acts with
    | nil => simp [session_run]
    | cons act rest =>
      cases act with
      | mk svc s => simp [session_run, analyze_click, session_run_cached]

/-! Helper lemmas about the lexicographic comparison and stable sorting. -/

/-- The comparison `charListLe` is total. -/
theorem charListLe_total : ∀ x y, (charListLe x y || charListLe y x) = true := by
  intro x
  induction x with
  | nil => intro y; simp [charListLe]
  | cons a as ih =>
    intro y
    cases y with
    | nil => simp [charListLe]
    | cons b bs =>
      by_cases h1 : a.toNat < b.toNat
      · simp [charListLe, h1]
      · by_cases h2 : b.toNat < a.toNat
        · simp [charListLe, h1, h2]
        · simp [charListLe, h1, h2, ih bs]

/-- The comparison `charListLe` is transitive. -/
theorem charListLe_trans :
    ∀ x y z, charListLe x y = true → charListLe y z = true →
      charListLe x z = true := by
  intro x
  induction x with
  | nil => intro y z _ _; rfl
  | cons a as ih =>
    intro y z h1 h2
    cases y with
    | nil => simp [charListLe] at h1
    | cons b bs =>
      cases z with
      | nil => simp [charListLe] at h2
      | cons c cs =>
        by_cases hab : a.toNat < b.toNat
        · by_cases hbc : b.toNat < c.toNat
          · simp [charListLe, show a.toNat < c.toNat by omega]
          · by_cases hcb : c.toNat < b.toNat
            · simp [charListLe, hbc, hcb] at h2
            · simp [charListLe, show a.toNat < c.toNat by omega]
        · by_cases hba : b.toNat < a.toNat
          · simp [charListLe, hab, hba] at h1
          · by_cases hbc : b.toNat < c.toNat
            · simp [charListLe, show a.toNat < c.toNat by omega]
            · by_cases hcb : c.toNat < b.toNat
              · simp [charListLe, hbc, hcb] at h2
              · have e1 : ¬ a.toNat < c.toNat := by omega
                have e2 : ¬ c.toNat < a.toNat := by omega
                simp [charListLe, hab, hba] at h1
                simp [charListLe, hbc, hcb] at h2
                simp [charListLe, e1, e2, ih bs cs h1 h2]

/-- The order `strLe` is total. -/
theorem strLe_total : ∀ a b : String, (strLe a b || strLe b a) = true := by
  intro a b; exact charListLe_total a.data b.data

/-- The order `strLe` is transitive. -/
theorem strLe_trans :
    ∀ a b c : String, strLe a b = true → strLe b c = true → strLe a c = true := by
  intro a b c h1 h2; exact charListLe_trans a.data b.data c.data h1 h2

/-- Two distinct members of a list form a sublist pair in one of the two
orders. -/
theorem pair_sublist_of_mem {α : Type} {a b : α} {l : List α} (hne : a ≠ b)
    (ha : a ∈ l) (hb : b ∈ l) : [a, b].Sublist l ∨ [b, a].Sublist l := by
  induction l with
  | nil => cases ha
  | cons x xs ih =>
    rcases List.mem_cons.mp ha with rfl | ha2
    · have hb2 : b ∈ xs := by
        rcases List.mem_cons.mp hb with h | h
        · exact absurd h.symm hne
        · exact h
      exact Or.inl ((List.singleton_sublist.mpr hb2).cons₂ a)
    · rcases List.mem_cons.mp hb with rfl | hb2
      · exact Or.inr ((List.singleton_sublist.mpr ha2).cons₂ b)
      · rcases ih ha2 hb2 with h | h
        · exact Or.inl (h.cons x)
        · exact Or.inr (h.cons x)

/-- In a duplicate-free list a pair cannot occur as a sublist in both orders
unless its components are equal. -/
theorem pair_sublist_antisymm {α : Type} {a b : α} :
    ∀ {l : List α}, l.Nodup → [a, b].Sublist l → [b, a].Sublist l → a = b := by
  intro l
  induction l with
  | nil => intro _ h1 _; simp at h1
  | cons x xs ih =>
    intro hl h1 h2
    have hx : x ∉ xs := (List.nodup_cons.mp hl).1
    cases h1 with
    | cons _ h1t =>
      cases h2 with
      | cons _ h2t => exact ih (List.nodup_cons.mp hl).2 h1t h2t
      | cons₂ _ h2t => exact absurd (h1t.subset (by simp)) hx
    | cons₂ _ h1t =>
      cases h2 with
      | cons _ h2t => exact absurd (h2t.subset (by simp)) hx
      | cons₂ _ h2t => rfl

/-- Sorting a duplicate-free list of strings with `strLe` yields a list that
is pairwise strictly increasing (weakly increasing and componentwise
distinct). -/
theorem mergeSort_strLe_pairwise (l : List String) (hl : l.Nodup) :
    (l.mergeSort (fun a b => strLe a b)).Pairwise
      (fun a b => strLe a b = true ∧ a ≠ b) := by
  have hs : (l.mergeSort (fun a b => strLe a b)).Pairwise
      (fun a b => strLe a b = true) :=
    List.sorted_mergeSort (fun a b c => strLe_trans a b c)
      (fun a b => strLe_total a b) l
  have hnd : (l.mergeSort (fun a b => strLe a b)).Nodup :=
    ((List.mergeSort_perm l _).symm).nodup hl
  rw [List.pairwise_iff_forall_sublist]
  intro a b hab
  exact ⟨List.pairwise_iff_forall_sublist.mp hs hab,
    List.pairwise_iff_forall_sublist.mp hnd hab⟩

unseal List.merge List.mergeSort in
/-- Evaluation of the key sort of `dfC6`. -/
theorem dfC6_keys_sorted :
    ((dfC6.map (fun t => t.merchant_category)).dedup).mergeSort
      (fun a b => strLe a b) = ["a", "z"] := by decide

unseal List.merge List.mergeSort in
/-- Evaluation of the stable ascending value sort on the tied pair. -/
theorem dfC6_value_sort_asc :
    ([("a", (10 : ℚ)), ("z", 10)]).mergeSort
      (fun a b => decide (a.2 ≤ b.2)) = [("a", 10), ("z", 10)] := by decide

unseal List.merge List.mergeSort in
/-- Evaluation of the stable descending value sort used by the claim-side
definition on the tied pair. -/
theorem dfC6_value_sort_desc :
    ([("a", (10 : ℚ)), ("z", 10)]).mergeSort
      (fun a b => decide (b.2 ≤ a.2)) = [("a", 10), ("z", 10)] := by decide

/-- Claim C6, counterexample: in `dfC6` the categories `a` (first appearance)
and `z` are tied on summed amount, yet the computed breakdown places `z`
first; the breakdown therefore differs from the appearance-order tie-breaking
the claim describes (`spend_by_category_claimed`). -/
theorem category_tie_order_counterexample :
    (spending_patterns dfC6).spend_by_category = [("z", 10), ("a", 10)]
    ∧ spend_by_category_claimed dfC6 = [("a", 10), ("z", 10)]
    ∧ (spending_patterns dfC6).spend_by_category ≠ spend_by_category_claimed dfC6 := by
  have hg : groupby_sum (fun t => t.merchant_category) dfC6 =
      [("a", (10 : ℚ)), ("z", 10)] := by
    simp only [groupby_sum]
    rw [dfC6_keys_sorted]
    simp [dfC6]
  have hsv : sort_values_descending [("a", (10 : ℚ)), ("z", 10)] =
      [("z", 10), ("a", 10)] := by
    simp only [sort_values_descending]
    rw [dfC6_value_sort_asc]
    rfl
  have h1 : (spending_patterns dfC6).spend_by_category = [("z", 10), ("a", 10)] := by
    simp only [spending_patterns]
    rw [hg, hsv]
  have hco : cats_in_order dfC6 = ["a", "z"] := by decide
  have h2 : spend_by_category_claimed dfC6 = [("a", 10), ("z", 10)] := by
    simp only [spend_by_category_claimed]
    rw [hco]
    have hmap : (["a", "z"].map (fun c =>
        (c, ((dfC6.filter (fun t => t.merchant_category == c)).map
          (fun t => t.amount)).sum))) = [("a", (10 : ℚ)), ("z", 10)] := by
      simp [dfC6]
    rw [hmap, dfC6_value_sort_desc]
  refine ⟨h1, h2, ?_⟩
  rw [h1, h2]
  decide

/-- Claim C6, amended: the category breakdown is ordered descending by summed
amount, with ties broken by descending (reverse-lexicographic) category name —
a consequence of pandas sorting the group keys ascending and implementing the
descending value sort as a reversed stable ascending sort — not by order of
appearance in the input; the digest lists exactly the first 5 entries of that
ordering (fewer if fewer categories exist). -/
theorem category_breakdown_sorted_desc_top5 (df : List Txn) (income : Option ℚ) :
    List.Pairwise
      (fun x y : String × ℚ =>
        y.2 < x.2 ∨ (x.2 = y.2 ∧ strLe y.1 x.1 = true ∧ y.1 ≠ x.1))
      ((spending_patterns df).spend_by_category)
    ∧ (build_summary_text (spending_patterns df) income).top_cats =
      ((spending_patterns df).spend_by_category).take 5 := by
  refine ⟨?_, by simp [build_summary_text]⟩
  simp only [spending_patterns, sort_values_descending]
  have htrans : ∀ a b c : String × ℚ, decide (a.2 ≤ b.2) = true →
      decide (b.2 ≤ c.2) = true → decide (a.2 ≤ c.2) = true := by
    intro a b c h1 h2
    simp only [decide_eq_true_iff] at h1 h2 ⊢
    exact le_trans h1 h2
  have htotal : ∀ a b : String × ℚ,
      (decide (a.2 ≤ b.2) || decide (b.2 ≤ a.2)) = true := by
    intro a b
    simpa using le_total a.2 b.2
  have hkeyspw := mergeSort_strLe_pairwise
    ((df.map (fun t => t.merchant_category)).dedup) (List.nodup_dedup _)
  have hglpw : (groupby_sum (fun t => t.merchant_category) df).Pairwise
      (fun a b => strLe a.1 b.1 = true ∧ a.1 ≠ b.1) := by
    simp only [groupby_sum]
    rw [List.pairwise_map]
    exact hkeyspw.imp (fun h => h)
  have hglnd : (groupby_sum (fun t => t.merchant_category) df).Nodup :=
    hglpw.imp (fun h => fun he => h.2 (congrArg Prod.fst he))
  have hsorted : ((groupby_sum (fun t => t.merchant_category) df).mergeSort
      (fun a b => decide (a.2 ≤ b.2))).Pairwise
      (fun a b => decide (a.2 ≤ b.2) = true) :=
    List.sorted_mergeSort htrans htotal _
  have hsnd : ((groupby_sum (fun t => t.merchant_category) df).mergeSort
      (fun a b => decide (a.2 ≤ b.2))).Nodup :=
    ((List.mergeSort_perm _ _).symm).nodup hglnd
  rw [List.pairwise_reverse, List.pairwise_iff_forall_sublist]
  intro a b hab
  have hle : a.2 ≤ b.2 := by
    have := List.pairwise_iff_forall_sublist.mp hsorted hab
    simpa using this
  rcases lt_or_eq_of_le hle with hlt | heq
  · exact Or.inl hlt
  · refine Or.inr ⟨heq.symm, ?_⟩
    have hne : a ≠ b := List.pairwise_iff_forall_sublist.mp hsnd hab
    have ham : a ∈ groupby_sum (fun t => t.merchant_category) df :=
      List.mem_mergeSort.mp (hab.subset (by simp))
    have hbm : b ∈ groupby_sum (fun t => t.merchant_category) df :=
      List.mem_mergeSort.mp (hab.subset (by simp))
    rcases pair_sublist_of_mem hne ham hbm with hgab | hgba
    · exact List.pairwise_iff_forall_sublist.mp hglpw hgab
    · have hlba : decide (b.2 ≤ a.2) = true := by simp [heq]
      have hstab := List.pair_sublist_mergeSort htrans htotal hlba hgba
      exact absurd (pair_sublist_antisymm hsnd hab hstab) hne

unseal List.merge List.mergeSort in
/-- Evaluation of the category keys of `dfA`. -/
theorem dfA_keys :
    ((dfA.rows.map (fun t => t.merchant_category)).dedup).mergeSort
      (fun a b => strLe a b) = ["a", "x"] := by decide

unseal List.merge List.mergeSort in
/-- Evaluation of the category keys of `dfB`. -/
theorem dfB_keys :
    ((dfB.rows.map (fun t => t.merchant_category)).dedup).mergeSort
      (fun a b => strLe a b) = ["a", "y"] := by decide

/-- The categories of the bar chart are the sorted distinct keys. -/
theorem plot_category_spend_fst (df : List Txn) :
    (plot_category_spend df).map Prod.fst =
      ((df.map (fun t => t.merchant_category)).dedup).mergeSort
        (fun a b => strLe a b) := by
  simp [plot_category_spend, groupby_sum, List.map_map, Function.comp_def]

/-- Claim C9: the rendered summary and the rule-based warning depend only on
the first 3 rows of the uploaded dataframe (`df_small = df.head(3)`), while
the rendered charts are computed from the full dataframe: `dfA` and `dfB`
agree on their first 3 rows yet produce different charts. -/
theorem summary_uses_first_three_rows_charts_full :
    (∀ df df2 : DataFrame, ∀ income : ℚ, df.cols = df2.cols →
      df.rows.take 3 = df2.rows.take 3 →
      summary_of (main_analyze df income) = summary_of (main_analyze df2 income))
    ∧ dfA.cols = dfB.cols
    ∧ dfA.rows.take 3 = dfB.rows.take 3
    ∧ charts_of (main_analyze dfA 0) ≠ charts_of (main_analyze dfB 0) := by
  refine ⟨?_, rfl, rfl, ?_⟩
  · intro df df2 income hcols htake
    simp only [main_analyze, hcols, htake]
    by_cases hv : validate_columns df2.cols required_cols = []
    · simp [hv, summary_of]
    · simp [hv, summary_of]
  · have hvalid : validate_columns dfA.cols required_cols = [] := by decide
    have hA : charts_of (main_analyze dfA 0) =
        some (plot_category_spend dfA.rows,
          plot_expense_type_distribution dfA.rows) := by
      simp [main_analyze, hvalid, charts_of]
    have hvalidB : validate_columns dfB.cols required_cols = [] := by decide
    have hB : charts_of (main_analyze dfB 0) =
        some (plot_category_spend dfB.rows,
          plot_expense_type_distribution dfB.rows) := by
      simp [main_analyze, hvalidB, charts_of]
    rw [hA, hB]
    intro h
    have h2 := congrArg Prod.fst (Option.some.inj h)
    have h3 := congrArg (List.map Prod.fst) h2
    rw [plot_category_spend_fst, plot_category_spend_fst, dfA_keys, dfB_keys] at h3
    exact absurd h3 (by decide)

/-- Claim C9, witness: the two concrete frames agree on their first 3 rows,
so the theorem forces their summaries and warnings to coincide even though
their full row sets differ. -/
theorem summary_uses_first_three_rows_charts_full_witness :
    summary_of (main_analyze dfA 0) = summary_of (main_analyze dfB 0) :=
  summary_uses_first_three_rows_charts_full.1 dfA dfB 0 rfl rfl
